import Mathlib

/-!
Shallow embedding of the TechStore point-of-sale application
(`techstore_project`): the data model (`model/`), the data-access
operations (`dao/`), and the service workflows (`services/`,
`app.py`) that the specification's claims are about.

Modelling conventions:
* The Oracle database is a record `DB` of table contents (lists of
  rows) plus the value of each sequence generator (`SEQ_*.NEXTVAL`
  returns the incremented value).
* Money amounts (`PRECIO_VENTA`, `TOTAL`, `SUBTOTAL`, `MONTO`,
  `SALDO_*`), Python `float` in the source, are modelled as `Rat`;
  every claimed arithmetic property (`max 0 (saldo - monto)`,
  `total = Σ cantidad * precio`) is exact, not rounding-dependent.
* `SYSDATE` timestamps are an explicit `now : Nat` parameter where a
  claim mentions them and are omitted from rows no claim reads.
* `raise ValueError` becomes the `Except VError` error channel; the
  service entry points return the error together with the database
  state visible after the call, so "no mutation happened" is a real
  statement about the returned state.
* Each DAO method in the source opens its own connection and commits
  before returning (`conn.commit()` then `conn.close()`); there is no
  transaction spanning two DAO calls.  `venta_contado_tras_fallo`
  below models the state visible when a persistence failure aborts
  the workflow between such per-call commits.
* SHA-256 (`hashlib`, an external library) is an explicit function
  parameter `hash : String → String` of the auth operations.
-/

/-- Row of table PRODUCTOS (`model/producto.py`), restricted to the
columns the claims read. -/
structure Producto where
  id_producto : Int
  nombre : String
  precio_venta : Rat
  stock : Int
deriving Repr, DecidableEq

/-- One requested sale line, the dict `{ "id_producto": ..., "cantidad": ... }`
consumed by `VentaService`. -/
structure Item where
  id_producto : Int
  cantidad : Int
deriving Repr, DecidableEq

/-- Row of table DETALLE_VENTAS / dataclass `DetalleVenta`
(`model/venta.py`); `id_detalle_venta` and `id_venta` are `none`
until the row is inserted. -/
structure DetalleVenta where
  id_detalle_venta : Option Nat := none
  id_venta : Option Nat := none
  id_producto : Int := 0
  cantidad : Int := 0
  precio_unitario : Rat := 0
  subtotal : Rat := 0
deriving Repr, DecidableEq

/-- Row of table VENTAS / dataclass `Venta` (`model/venta.py`).
`es_credito` is stored as the CHAR 'S'/'N' in Oracle; a `Bool` here.
`detalles` is the 1-N relation carried by the dataclass, empty on a
stored table row. -/
structure Venta where
  id_venta : Option Nat := none
  id_usuario : Int := 0
  id_cliente : Int := 0
  total : Rat := 0
  es_credito : Bool := false
  detalles : List DetalleVenta := []
deriving Repr, DecidableEq

/-- Row of table CREDITOS / dataclass `Credito` (`model/credito.py`);
`fecha_vencimiento` is an abstract day number. -/
structure Credito where
  id_credito : Option Nat := none
  id_venta : Nat := 0
  saldo_total : Rat := 0
  saldo_pendiente : Rat := 0
  fecha_vencimiento : Nat := 0
  estado : String := "VIGENTE"
deriving Repr, DecidableEq

/-- Row of table PAGOS / dataclass `Pago` (`model/credito.py`). -/
structure Pago where
  id_pago : Option Nat := none
  id_credito : Nat := 0
  monto : Rat := 0
  saldo_restante : Rat := 0
deriving Repr, DecidableEq

/-- Row of table USUARIOS / dataclass `Usuario` (`model/usuario.py`),
restricted to the columns the claims read. -/
structure Usuario where
  id_usuario : Option Nat := none
  nombre : String := ""
  apellido : String := ""
  username : String := ""
  password_hash : String := ""
  estado : String := "ACTIVO"
  id_rol : Int := 0
deriving Repr, DecidableEq

/-- Row of table BITACORA_SESION / dataclass `BitacoraSesion`
(`model/bitacora.py`); `fecha_login` is the `SYSDATE` at insertion,
`fecha_logout` is NULL (`none`) until `registrar_logout`. -/
structure BitacoraSesion where
  id_bitacora : Nat := 0
  id_usuario : Option Nat := none
  fecha_login : Nat := 0
  fecha_logout : Option Nat := none
  ip : String := ""
  detalle : String := ""
deriving Repr, DecidableEq

/-- The database: one list of rows per table touched by the claims,
plus the current value of each Oracle sequence (`SEQ_X.NEXTVAL`
yields the successor). -/
structure DB where
  productos : List Producto := []
  ventas : List Venta := []
  detalles : List DetalleVenta := []
  creditos : List Credito := []
  pagos : List Pago := []
  usuarios : List Usuario := []
  bitacora : List BitacoraSesion := []
  seq_venta : Nat := 0
  seq_detalle : Nat := 0
  seq_credito : Nat := 0
  seq_pago : Nat := 0
  seq_usuario : Nat := 0
  seq_bitacora : Nat := 0
deriving Repr, DecidableEq

/-- The `ValueError`s raised by the sale and payment workflows
(`venta_service.py`, `credito_dao.py`), as structured values. -/
inductive VError where
  | cantidadInvalida (id_producto : Int)
  | productoNoExiste (id_producto : Int)
  | stockInsuficiente (nombre : String) (stock : Int) (solicitado : Int)
  | creditoNoEncontrado
deriving Repr, DecidableEq

/-- The message text of each `ValueError`, as the Python f-strings
build it. -/
def VError.mensaje : VError → String
  | .cantidadInvalida idp => s!"Cantidad inválida para producto {idp}"
  | .productoNoExiste idp => s!"Producto {idp} no existe"
  | .stockInsuficiente nombre stock solicitado =>
      s!"Stock insuficiente para producto {nombre} (stock={stock}, solicitado={solicitado})"
  | .creditoNoEncontrado => "Crédito no encontrado"

/-! ## Data-access operations (`dao/`) -/

/-- `ProductoDAO.obtener_por_id` (`producto_dao.py`): SELECT by primary
key; `fetchone` yields the first matching row or NULL. -/
def ProductoDAO.obtener_por_id (db : DB) (id_producto : Int) : Option Producto :=
  db.productos.find? (fun p => p.id_producto == id_producto)

/-- `ProductoDAO.actualizar_stock` (`producto_dao.py` lines 143-157):
`UPDATE PRODUCTOS SET STOCK = :stock WHERE ID_PRODUCTO = :id_producto`,
committed on its own connection. -/
def ProductoDAO.actualizar_stock (db : DB) (id_producto : Int) (nuevo_stock : Int) : DB :=
  { db with
    productos := db.productos.map
      (fun p => if p.id_producto == id_producto then { p with stock := nuevo_stock } else p) }

/-- `VentaDAO._insertar_detalle` (`venta_dao.py` lines 143-170): fills
in `SUBTOTAL` when it is 0, draws `SEQ_DETALLE_VENTA.NEXTVAL`, and
inserts the DETALLE_VENTAS row on the caller's cursor. -/
def VentaDAO.insertar_detalle (db : DB) (id_venta : Nat) (detalle : DetalleVenta) : DB :=
  let subtotal :=
    if detalle.subtotal = 0 then (detalle.cantidad : Rat) * detalle.precio_unitario
    else detalle.subtotal
  let new_id_det := db.seq_detalle + 1
  { db with
    seq_detalle := new_id_det,
    detalles := db.detalles ++
      [{ detalle with
           id_detalle_venta := some new_id_det,
           id_venta := some id_venta,
           subtotal := subtotal }] }

/-- The `for det in venta.detalles: self._insertar_detalle(...)` loop
inside `VentaDAO.crear`. -/
def VentaDAO.insertar_detalles (db : DB) (id_venta : Nat) : List DetalleVenta → DB
  | [] => db
  | d :: ds => VentaDAO.insertar_detalles (VentaDAO.insertar_detalle db id_venta d) id_venta ds

/-- `VentaDAO.crear` (`venta_dao.py` lines 60-103): computes the total
from the lines when the given total is 0 and lines exist, draws
`SEQ_VENTA.NEXTVAL`, inserts the VENTAS row, inserts every
DETALLE_VENTAS row, and commits once at the end of the call.  Python
mutates `venta.total` in place before the insert; the model returns
that stored total alongside the new id. -/
def VentaDAO.crear (db : DB) (venta : Venta) : Nat × Rat × DB :=
  let total :=
    if venta.total = 0 ∧ venta.detalles ≠ [] then
      (venta.detalles.map (fun d => (d.cantidad : Rat) * d.precio_unitario)).sum
    else venta.total
  let new_id_venta := db.seq_venta + 1
  let db1 :=
    { db with
      seq_venta := new_id_venta,
      ventas := db.ventas ++
        [{ venta with id_venta := some new_id_venta, total := total, detalles := [] }] }
  (new_id_venta, total, VentaDAO.insertar_detalles db1 new_id_venta venta.detalles)

/-- `CreditoDAO.crear` (`credito_dao.py` lines 74-103): draws
`SEQ_CREDITO.NEXTVAL`, inserts the CREDITOS row as given, commits. -/
def CreditoDAO.crear (db : DB) (credito : Credito) : Nat × DB :=
  let new_id := db.seq_credito + 1
  (new_id,
   { db with
     seq_credito := new_id,
     creditos := db.creditos ++ [{ credito with id_credito := some new_id }] })

/-- The `SELECT ... FROM CREDITOS WHERE ID_CREDITO = :id` + `fetchone`
lookup used by `CreditoDAO.obtener_por_id` and `registrar_pago`. -/
def CreditoDAO.buscar (db : DB) (id_credito : Nat) : Option Credito :=
  db.creditos.find? (fun c => c.id_credito == some id_credito)

/-- `CreditoDAO.registrar_pago` (`credito_dao.py` lines 165-235): reads
the credit's `SALDO_PENDIENTE` (not-found aborts), computes
`saldo_restante = saldo - monto` clamped at 0, inserts the PAGOS row
with that snapshot, updates the credit's `SALDO_PENDIENTE` and
`ESTADO` (`"PAGADO"` when the new balance is 0, else `"VIGENTE"`),
and commits.  No validation of `pago.monto` is performed: the
docstring merely assumes `pago.monto > 0`. -/
def CreditoDAO.registrar_pago (db : DB) (pago : Pago) : Except VError Nat × DB :=
  match CreditoDAO.buscar db pago.id_credito with
  | none => (.error .creditoNoEncontrado, db)
  | some credito =>
    let saldo_pendiente_actual := credito.saldo_pendiente
    let saldo_restante :=
      let s := saldo_pendiente_actual - pago.monto
      if s < 0 then 0 else s
    let new_id_pago := db.seq_pago + 1
    let nuevo_estado := if saldo_restante = 0 then "PAGADO" else "VIGENTE"
    (.ok new_id_pago,
     { db with
       seq_pago := new_id_pago,
       pagos := db.pagos ++
         [{ pago with id_pago := some new_id_pago, saldo_restante := saldo_restante }],
       creditos := db.creditos.map
         (fun c =>
           if c.id_credito == some pago.id_credito then
             { c with saldo_pendiente := saldo_restante, estado := nuevo_estado }
           else c) })

/-- Model of Oracle's `UPPER` (an external collaborator of the code):
uppercases every character of the string. -/
def sqlUpper (s : String) : String := ⟨s.data.map Char.toUpper⟩

/-- `UsuarioDAO.buscar_por_username` (`usuario_dao.py` lines 51-70):
`SELECT ... WHERE UPPER(USERNAME) = UPPER(:username)` + `fetchone`. -/
def UsuarioDAO.buscar_por_username (db : DB) (username : String) : Option Usuario :=
  db.usuarios.find? (fun u => sqlUpper u.username == sqlUpper username)

/-- `UsuarioDAO.crear` (`usuario_dao.py` lines 72-104): draws
`SEQ_USUARIO.NEXTVAL` and inserts the USUARIOS row unconditionally —
no uniqueness lookup and no declared constraint appear in the call. -/
def UsuarioDAO.crear (db : DB) (usuario : Usuario) : Nat × DB :=
  let new_id := db.seq_usuario + 1
  (new_id,
   { db with
     seq_usuario := new_id,
     usuarios := db.usuarios ++ [{ usuario with id_usuario := some new_id }] })

/-- `BitacoraDAO.registrar_login` (`bitacora_dao.py` lines 15-43):
draws `SEQ_BITACORA.NEXTVAL` and inserts a BITACORA_SESION row with
`FECHA_LOGIN = SYSDATE` (the `now` parameter) and `FECHA_LOGOUT`
NULL. -/
def BitacoraDAO.registrar_login (db : DB) (id_usuario : Option Nat)
    (ip : String) (detalle : String) (now : Nat) : Nat × DB :=
  let new_id := db.seq_bitacora + 1
  (new_id,
   { db with
     seq_bitacora := new_id,
     bitacora := db.bitacora ++
       [{ id_bitacora := new_id, id_usuario := id_usuario,
          fecha_login := now, fecha_logout := none, ip := ip, detalle := detalle }] })

/-! ## Sale workflow (`services/venta_service.py`) -/

/-- `VentaService._validar_y_cargar_productos` (lines 33-64): walks the
requested lines in order; rejects a non-positive quantity, a missing
product, or a quantity above the product's stored stock (re-read per
line), raising on the first offending line; returns the
(item, product-snapshot) pairs otherwise.  Pure reads: no row is
written. -/
def VentaService.validar_y_cargar_productos (db : DB) :
    List Item → Except VError (List (Item × Producto))
  | [] => .ok []
  | item :: rest =>
    if item.cantidad ≤ 0 then
      .error (.cantidadInvalida item.id_producto)
    else
      match ProductoDAO.obtener_por_id db item.id_producto with
      | none => .error (.productoNoExiste item.id_producto)
      | some producto =>
        if producto.stock < item.cantidad then
          .error (.stockInsuficiente producto.nombre producto.stock item.cantidad)
        else
          (VentaService.validar_y_cargar_productos db rest).map ((item, producto) :: ·)

/-- `VentaService._construir_detalles` (lines 66-86): one `DetalleVenta`
per validated pair, with `precio_unitario = producto.precio_venta` and
`subtotal = cantidad * precio_unitario`. -/
def VentaService.construir_detalles (productos_validados : List (Item × Producto)) :
    List DetalleVenta :=
  productos_validados.map fun (item, producto) =>
    { id_producto := producto.id_producto,
      cantidad := item.cantidad,
      precio_unitario := producto.precio_venta,
      subtotal := (item.cantidad : Rat) * producto.precio_venta }

/-- `VentaService._actualizar_stock_despues_de_venta` (lines 88-98):
one `ProductoDAO.actualizar_stock` call per validated pair, writing
`producto.stock - cantidad` computed from the snapshot fetched during
validation (each call commits on its own connection). -/
def VentaService.actualizar_stock_despues_de_venta (db : DB)
    (productos_validados : List (Item × Producto)) : DB :=
  productos_validados.foldl
    (fun d (par : Item × Producto) =>
      ProductoDAO.actualizar_stock d par.2.id_producto (par.2.stock - par.1.cantidad))
    db

/-- `VentaService.registrar_venta_contado` (lines 104-130): validate
all lines, build the detail rows, insert the sale via
`VentaDAO.crear`, then decrement each product's stock; returns the new
sale id.  The pair's second component is the database state visible
after the call (unchanged when validation raised, since validation
performs no writes). -/
def VentaService.registrar_venta_contado (db : DB) (id_usuario id_cliente : Int)
    (items : List Item) : Except VError Nat × DB :=
  match VentaService.validar_y_cargar_productos db items with
  | .error e => (.error e, db)
  | .ok productos_validados =>
    let detalles := VentaService.construir_detalles productos_validados
    let venta : Venta :=
      { id_usuario := id_usuario, id_cliente := id_cliente,
        es_credito := false, detalles := detalles }
    let (id_venta, _total, db1) := VentaDAO.crear db venta
    (.ok id_venta, VentaService.actualizar_stock_despues_de_venta db1 productos_validados)

/-- `VentaService.registrar_venta_credito` (lines 132-167): same as the
cash sale, then inserts one CREDITOS row with
`saldo_total = saldo_pendiente = venta.total` (the total stored by
`VentaDAO.crear`, which mutated `venta.total` in place),
`estado = "VIGENTE"`; returns `(id_venta, id_credito)`. -/
def VentaService.registrar_venta_credito (db : DB) (id_usuario id_cliente : Int)
    (items : List Item) (fecha_vencimiento : Nat) : Except VError (Nat × Nat) × DB :=
  match VentaService.validar_y_cargar_productos db items with
  | .error e => (.error e, db)
  | .ok productos_validados =>
    let detalles := VentaService.construir_detalles productos_validados
    let venta : Venta :=
      { id_usuario := id_usuario, id_cliente := id_cliente,
        es_credito := true, detalles := detalles }
    let (id_venta, total, db1) := VentaDAO.crear db venta
    let db2 := VentaService.actualizar_stock_despues_de_venta db1 productos_validados
    let credito : Credito :=
      { id_venta := id_venta, saldo_total := total, saldo_pendiente := total,
        fecha_vencimiento := fecha_vencimiento, estado := "VIGENTE" }
    let (id_credito, db3) := CreditoDAO.crear db2 credito
    (.ok (id_venta, id_credito), db3)

/-- Database state visible when a persistence failure aborts
`registrar_venta_contado` while executing the `(k+1)`-th
`ProductoDAO.actualizar_stock` call (0-based `k`), after validation
succeeded.  In the source every DAO call commits on its own
connection (`conn.commit()` in `VentaDAO.crear` and in each
`actualizar_stock`), and no transaction spans the workflow; so the
sale row, its detail rows, and the first `k` stock decrements are
already durable, while the failing statement's own work is rolled
back when its connection closes.  `none` when validation failed (then
nothing was written at all). -/
def VentaService.venta_contado_tras_fallo (db : DB) (id_usuario id_cliente : Int)
    (items : List Item) (k : Nat) : Option DB :=
  match VentaService.validar_y_cargar_productos db items with
  | .error _ => none
  | .ok productos_validados =>
    let detalles := VentaService.construir_detalles productos_validados
    let venta : Venta :=
      { id_usuario := id_usuario, id_cliente := id_cliente,
        es_credito := false, detalles := detalles }
    let (_id_venta, _total, db1) := VentaDAO.crear db venta
    some (VentaService.actualizar_stock_despues_de_venta db1 (productos_validados.take k))

/-! ## Auth workflow (`services/auth_service.py`, `app.py`) -/

/-- The successful-login result dataclass `ResultadoLogin`. -/
structure ResultadoLogin where
  usuario : Usuario
  id_bitacora : Nat
deriving Repr, DecidableEq

/-- `AuthService.login` (lines 52-82): find the user case-insensitively
by username; fail (return `none`, writing nothing) when there is no
match, the user's `estado` is not `"ACTIVO"`, or the recomputed
password hash differs from the stored one; otherwise insert one
BITACORA_SESION row and return the user with the new row's id.  The
SHA-256 of `hashlib` is the explicit `hash` parameter. -/
def AuthService.login (hash : String → String) (db : DB)
    (username password : String) (ip : String) (detalle : String) (now : Nat) :
    Option ResultadoLogin × DB :=
  match UsuarioDAO.buscar_por_username db username with
  | none => (none, db)
  | some usuario =>
    if usuario.estado ≠ "ACTIVO" then (none, db)
    else
      let hash_ingresado := hash password
      if hash_ingresado ≠ usuario.password_hash then (none, db)
      else
        let (id_bitacora, db1) :=
          BitacoraDAO.registrar_login db usuario.id_usuario ip detalle now
        (some { usuario := usuario, id_bitacora := id_bitacora }, db1)

/-- `AuthService.crear_usuario` (lines 90-111): builds the `Usuario`
with the hashed password and hands it to `UsuarioDAO.crear`; no
username lookup happens anywhere in the call. -/
def AuthService.crear_usuario (hash : String → String) (db : DB)
    (nombre apellido username password : String) (id_rol : Int)
    (estado : String := "ACTIVO") : Nat × DB :=
  let usuario : Usuario :=
    { nombre := nombre, apellido := apellido, username := username,
      password_hash := hash password, estado := estado, id_rol := id_rol }
  UsuarioDAO.crear db usuario

/-- Role-id constants of `app.py` (lines 26-28). -/
def ROLE_ADMIN_ID : Int := 1

/-- Role id of the "Paramétrico" role (`app.py`). -/
def ROLE_PARAMETRICO_ID : Int := 2

/-- Role id of the "Esporádico" role (`app.py`). -/
def ROLE_ESPORADICO_ID : Int := 3

/-- `nivel_from_usuario` (`app.py` lines 290-303): maps the user's
`ID_ROL` to the logical access level, falling through to 3. -/
def nivel_from_usuario (usuario : Usuario) : Int :=
  if usuario.id_rol = ROLE_ADMIN_ID then 1
  else if usuario.id_rol = ROLE_PARAMETRICO_ID then 2
  else if usuario.id_rol = ROLE_ESPORADICO_ID then 3
  else 3

/-! ## Derived descriptions and concrete fixtures used by the proofs -/

/-- The DETALLE_VENTAS rows that the `_insertar_detalle` loop of
`VentaDAO.crear` produces from the in-memory lines, given the starting
value of `SEQ_DETALLE_VENTA` and the new sale id (derived from
`VentaDAO.insertar_detalle`). -/
def filas_detalle (seq0 id_venta : Nat) : List DetalleVenta → List DetalleVenta
  | [] => []
  | d :: ds =>
    { d with
        id_detalle_venta := some (seq0 + 1),
        id_venta := some id_venta,
        subtotal :=
          if d.subtotal = 0 then (d.cantidad : Rat) * d.precio_unitario else d.subtotal }
      :: filas_detalle (seq0 + 1) id_venta ds

/-- Fixture: product 1 of the concrete scenarios. -/
def productoA : Producto := { id_producto := 1, nombre := "A", precio_venta := 10, stock := 5 }

/-- Fixture: product 2 of the concrete scenarios. -/
def productoB : Producto := { id_producto := 2, nombre := "B", precio_venta := 20, stock := 5 }

/-- Fixture: catalogue with the two products and empty sales tables. -/
def dbDosProductos : DB := { productos := [productoA, productoB] }

/-- Fixture: one credit of 100 with full balance outstanding and
`estado = "MORA"` (overdue). -/
def creditoMora : Credito :=
  { id_credito := some 1, id_venta := 1, saldo_total := 100,
    saldo_pendiente := 100, fecha_vencimiento := 10, estado := "MORA" }

/-- Fixture: database holding only `creditoMora`. -/
def dbPagoMora : DB := { creditos := [creditoMora], seq_credito := 1 }

/-- Fixture: a concrete stand-in for the external SHA-256 function. -/
def hashConcreto : String → String := fun s => s ++ "#"

/-- Fixture: an existing active user whose username is `"admin"`. -/
def usuarioAdmin : Usuario :=
  { id_usuario := some 1, nombre := "Ana", apellido := "A", username := "admin",
    password_hash := hashConcreto "pw", estado := "ACTIVO", id_rol := 1 }

/-- Fixture: database holding only `usuarioAdmin`. -/
def dbUsuarioExistente : DB := { usuarios := [usuarioAdmin], seq_usuario := 1 }


/-! ## Theorems -/

/-- The clamp `if s < 0 then 0 else s` of `registrar_pago` is `max 0 s`. -/
theorem clamp_eq_max (s : Rat) : (if s < 0 then (0 : Rat) else s) = max 0 s := by
  rw [max_def]
  split_ifs with h1 h2 <;> first | rfl | linarith

/-- `find?` after a conditional in-place update (SQL `UPDATE ... WHERE`)
returns the updated first match, provided the update keeps the
predicate's verdict. -/
theorem encontrar_tras_map {α : Type} (l : List α) (q : α → Bool) (f : α → α) (a : α)
    (hqf : ∀ x, q (f x) = q x)
    (h : l.find? q = some a) :
    (l.map (fun x => if q x then f x else x)).find? q = some (f a) := by
  induction l with
  | nil => simp at h
  | cons b l ih =>
    by_cases hb : q b = true
    · rw [List.find?_cons_of_pos _ hb] at h
      have ha : b = a := Option.some_inj.mp h
      simp only [List.map_cons, hb, if_true]
      rw [List.find?_cons_of_pos _ ((hqf b).trans hb), ha]
    · have hb' : q b = false := by simpa using hb
      rw [List.find?_cons_of_neg _ (by simp [hb'])] at h
      simp only [List.map_cons, hb', if_false, Bool.false_eq_true]
      rw [List.find?_cons_of_neg _ (by simp [hb'])]
      exact ih h

/-- Characterization of `CreditoDAO.registrar_pago` when the credit
exists: the result, the inserted PAGOS row and the credit update, with
the clamp written as `max`. -/
theorem registrar_pago_eq (db : DB) (pago : Pago) (c : Credito)
    (hc : CreditoDAO.buscar db pago.id_credito = some c) :
    CreditoDAO.registrar_pago db pago =
      (.ok (db.seq_pago + 1),
       { db with
         seq_pago := db.seq_pago + 1,
         pagos := db.pagos ++
           [{ pago with
                id_pago := some (db.seq_pago + 1),
                saldo_restante := max 0 (c.saldo_pendiente - pago.monto) }],
         creditos := db.creditos.map
           (fun x =>
             if x.id_credito == some pago.id_credito then
               { x with
                   saldo_pendiente := max 0 (c.saldo_pendiente - pago.monto),
                   estado :=
                     if max 0 (c.saldo_pendiente - pago.monto) = 0 then "PAGADO"
                     else "VIGENTE" }
             else x) }) := by
  unfold CreditoDAO.registrar_pago
  rw [hc]
  simp only [clamp_eq_max]

/-- C2: for every existing credit and every payment amount,
`registrar_pago` computes the new remaining balance as
`max 0 (previous - amount)`, records that snapshot on the inserted
PAGOS row and on the CREDITOS row, never drives the balance below 0,
and sets the credit's estado to `"PAGADO"` exactly when the new
balance is 0 and to `"VIGENTE"` otherwise, whatever the prior estado
(including `"MORA"`). -/
theorem registrar_pago_saldo_y_estado (db : DB) (id_credito : Nat) (monto : Rat) (c : Credito)
    (hc : CreditoDAO.buscar db id_credito = some c) :
    (CreditoDAO.registrar_pago db { id_credito := id_credito, monto := monto }).1 =
      .ok (db.seq_pago + 1) ∧
    (CreditoDAO.registrar_pago db { id_credito := id_credito, monto := monto }).2.pagos =
      db.pagos ++
        [{ id_pago := some (db.seq_pago + 1), id_credito := id_credito, monto := monto,
           saldo_restante := max 0 (c.saldo_pendiente - monto) }] ∧
    CreditoDAO.buscar
        (CreditoDAO.registrar_pago db { id_credito := id_credito, monto := monto }).2
        id_credito =
      some { c with
               saldo_pendiente := max 0 (c.saldo_pendiente - monto),
               estado :=
                 if max 0 (c.saldo_pendiente - monto) = 0 then "PAGADO" else "VIGENTE" } ∧
    0 ≤ max 0 (c.saldo_pendiente - monto) ∧
    ((if max 0 (c.saldo_pendiente - monto) = 0 then "PAGADO" else "VIGENTE") = "PAGADO" ↔
      max 0 (c.saldo_pendiente - monto) = 0) := by
  rw [registrar_pago_eq db _ c hc]
  refine ⟨rfl, rfl, ?_, le_max_left 0 _, ?_⟩
  · exact encontrar_tras_map db.creditos _ _ c (fun x => rfl) hc
  · split_ifs with h
    · simp [h]
    · simp [h]

/-- Witness for C2 at the overdue credit `creditoMora` and amount 40. -/
theorem registrar_pago_saldo_y_estado_witness :
    (CreditoDAO.registrar_pago dbPagoMora { id_credito := 1, monto := 40 }).1 =
      .ok (dbPagoMora.seq_pago + 1) ∧
    (CreditoDAO.registrar_pago dbPagoMora { id_credito := 1, monto := 40 }).2.pagos =
      dbPagoMora.pagos ++
        [{ id_pago := some (dbPagoMora.seq_pago + 1), id_credito := 1, monto := 40,
           saldo_restante := max 0 (creditoMora.saldo_pendiente - 40) }] ∧
    CreditoDAO.buscar
        (CreditoDAO.registrar_pago dbPagoMora { id_credito := 1, monto := 40 }).2 1 =
      some { creditoMora with
               saldo_pendiente := max 0 (creditoMora.saldo_pendiente - 40),
               estado :=
                 if max 0 (creditoMora.saldo_pendiente - 40) = 0 then "PAGADO"
                 else "VIGENTE" } ∧
    0 ≤ max 0 (creditoMora.saldo_pendiente - 40) ∧
    ((if max 0 (creditoMora.saldo_pendiente - 40) = 0 then "PAGADO" else "VIGENTE") =
        "PAGADO" ↔ max 0 (creditoMora.saldo_pendiente - 40) = 0) :=
  registrar_pago_saldo_y_estado dbPagoMora 1 40 creditoMora rfl

/-- C3 counterexample: with amount 0 (non-positive) on the overdue
credit `creditoMora`, `registrar_pago` does not fail: it returns a new
payment id, inserts one PAGOS row, and rewrites the CREDITOS row
(estado `"MORA"` becomes `"VIGENTE"`). -/
theorem registrar_pago_monto_cero_no_falla :
    (CreditoDAO.registrar_pago dbPagoMora { id_credito := 1, monto := 0 }).1 = .ok 1 ∧
    (CreditoDAO.registrar_pago dbPagoMora { id_credito := 1, monto := 0 }).2.pagos.length =
      dbPagoMora.pagos.length + 1 ∧
    CreditoDAO.buscar
        (CreditoDAO.registrar_pago dbPagoMora { id_credito := 1, monto := 0 }).2 1 =
      some { creditoMora with estado := "VIGENTE" } ∧
    ({ creditoMora with estado := "VIGENTE" } : Credito) ≠ creditoMora := by
  refine ⟨rfl, rfl, ?_, by simp [creditoMora]⟩
  rw [registrar_pago_eq dbPagoMora { id_credito := 1, monto := 0 } creditoMora rfl]
  simp [CreditoDAO.buscar, dbPagoMora, creditoMora]

/-- C3 amended: `registrar_pago` performs no amount validation.  With
a non-positive amount and an existing credit it still succeeds,
inserts one PAGOS row whose snapshot is `max 0 (saldo - monto)`, does
not decrease the remaining balance, and rewrites the credit's estado
from the new balance alone. -/
theorem registrar_pago_monto_no_positivo_inserta (db : DB) (id_credito : Nat)
    (monto : Rat) (c : Credito)
    (hm : monto ≤ 0) (hc : CreditoDAO.buscar db id_credito = some c) :
    (CreditoDAO.registrar_pago db { id_credito := id_credito, monto := monto }).1 =
      .ok (db.seq_pago + 1) ∧
    (CreditoDAO.registrar_pago db { id_credito := id_credito, monto := monto }).2.pagos =
      db.pagos ++
        [{ id_pago := some (db.seq_pago + 1), id_credito := id_credito, monto := monto,
           saldo_restante := max 0 (c.saldo_pendiente - monto) }] ∧
    c.saldo_pendiente ≤ max 0 (c.saldo_pendiente - monto) ∧
    CreditoDAO.buscar
        (CreditoDAO.registrar_pago db { id_credito := id_credito, monto := monto }).2
        id_credito =
      some { c with
               saldo_pendiente := max 0 (c.saldo_pendiente - monto),
               estado :=
                 if max 0 (c.saldo_pendiente - monto) = 0 then "PAGADO" else "VIGENTE" } := by
  rw [registrar_pago_eq db _ c hc]
  refine ⟨rfl, rfl, ?_, encontrar_tras_map db.creditos _ _ c (fun x => rfl) hc⟩
  rcases le_or_lt c.saldo_pendiente 0 with h | h
  · exact le_trans h (le_max_left 0 _)
  · exact le_trans (by linarith) (le_max_right 0 (c.saldo_pendiente - monto))

/-- Witness for the amended C3 at `creditoMora` and amount 0. -/
theorem registrar_pago_monto_no_positivo_inserta_witness :
    (CreditoDAO.registrar_pago dbPagoMora { id_credito := 1, monto := 0 }).1 =
      .ok (dbPagoMora.seq_pago + 1) ∧
    (CreditoDAO.registrar_pago dbPagoMora { id_credito := 1, monto := 0 }).2.pagos =
      dbPagoMora.pagos ++
        [{ id_pago := some (dbPagoMora.seq_pago + 1), id_credito := 1, monto := 0,
           saldo_restante := max 0 (creditoMora.saldo_pendiente - 0) }] ∧
    creditoMora.saldo_pendiente ≤ max 0 (creditoMora.saldo_pendiente - 0) ∧
    CreditoDAO.buscar
        (CreditoDAO.registrar_pago dbPagoMora { id_credito := 1, monto := 0 }).2 1 =
      some { creditoMora with
               saldo_pendiente := max 0 (creditoMora.saldo_pendiente - 0),
               estado :=
                 if max 0 (creditoMora.saldo_pendiente - 0) = 0 then "PAGADO"
                 else "VIGENTE" } :=
  registrar_pago_monto_no_positivo_inserta dbPagoMora 1 0 creditoMora le_rfl rfl

/-- C10: `nivel_from_usuario` maps role id 1 to level 1, 2 to level 2,
3 to level 3, and every other role id to level 3. -/
theorem nivel_from_usuario_spec (u : Usuario) :
    (u.id_rol = 1 → nivel_from_usuario u = 1) ∧
    (u.id_rol = 2 → nivel_from_usuario u = 2) ∧
    (u.id_rol = 3 → nivel_from_usuario u = 3) ∧
    (u.id_rol ≠ 1 → u.id_rol ≠ 2 → u.id_rol ≠ 3 → nivel_from_usuario u = 3) := by
  unfold nivel_from_usuario ROLE_ADMIN_ID ROLE_PARAMETRICO_ID ROLE_ESPORADICO_ID
  refine ⟨fun h => ?_, fun h => ?_, fun h => ?_, fun h1 h2 h3 => ?_⟩
  · simp [h]
  · simp [h]
  · simp [h]
  · simp [h1, h2, h3]

/-- Witness for C10 at role ids 1, 2, 3 and the unrecognized 99. -/
theorem nivel_from_usuario_spec_witness :
    nivel_from_usuario { id_rol := 1 } = 1 ∧
    nivel_from_usuario { id_rol := 2 } = 2 ∧
    nivel_from_usuario { id_rol := 3 } = 3 ∧
    nivel_from_usuario { id_rol := 99 } = 3 :=
  ⟨(nivel_from_usuario_spec _).1 rfl,
   (nivel_from_usuario_spec _).2.1 rfl,
   (nivel_from_usuario_spec _).2.2.1 rfl,
   (nivel_from_usuario_spec _).2.2.2 (by decide) (by decide) (by decide)⟩

/-- C1 (code bug witness): a persistence failure during the second
stock-update statement of a two-line cash sale leaves a partial sale
visible.  The sale row and both detail rows are committed (by
`VentaDAO.crear`'s own commit), product 1's stock is already
decremented (5 to 3, committed by the first `actualizar_stock`), but
product 2's stock is untouched (still 5) — so the inserts and the
first update issued by the failed call were not rolled back. -/
theorem venta_contado_fallo_deja_venta_parcial :
    ∃ db', VentaService.venta_contado_tras_fallo dbDosProductos 1 1
        [{ id_producto := 1, cantidad := 2 }, { id_producto := 2, cantidad := 3 }] 1 =
        some db' ∧
      db'.ventas.length = 1 ∧
      db'.detalles.length = 2 ∧
      ProductoDAO.obtener_por_id db' 1 = some { productoA with stock := 3 } ∧
      ProductoDAO.obtener_por_id db' 2 = some productoB := by
  exact ⟨_, rfl, rfl, rfl, rfl, rfl⟩

/-- C9 counterexample: with the active user `"admin"` already stored,
`crear_usuario` with username `"ADMIN"` (a case-insensitive match)
does not fail: it returns a fresh id and inserts a second USUARIOS
row, leaving two users whose usernames differ only in case. -/
theorem crear_usuario_duplicado_inserta :
    (AuthService.crear_usuario hashConcreto dbUsuarioExistente "Beto" "B" "ADMIN" "pw2" 2).1 =
      2 ∧
    (AuthService.crear_usuario hashConcreto dbUsuarioExistente "Beto" "B" "ADMIN" "pw2"
        2).2.usuarios.length = dbUsuarioExistente.usuarios.length + 1 ∧
    (∃ u0 ∈ dbUsuarioExistente.usuarios, sqlUpper u0.username = sqlUpper "ADMIN") ∧
    ((AuthService.crear_usuario hashConcreto dbUsuarioExistente "Beto" "B" "ADMIN" "pw2"
        2).2.usuarios.map Usuario.username) = ["admin", "ADMIN"] := by
  refine ⟨rfl, rfl, ⟨usuarioAdmin, by simp [dbUsuarioExistente], rfl⟩, rfl⟩

/-- C9 amended: no uniqueness enforcement exists at user creation.
`crear_usuario` performs no lookup and unconditionally inserts a new
USUARIOS row even when an existing user's username matches the new one
case-insensitively. -/
theorem crear_usuario_sin_unicidad (hash : String → String) (db : DB)
    (nombre apellido username password : String) (id_rol : Int) (estado : String)
    (hdup : ∃ u0 ∈ db.usuarios, sqlUpper u0.username = sqlUpper username) :
    AuthService.crear_usuario hash db nombre apellido username password id_rol estado =
      (db.seq_usuario + 1,
       { db with
         seq_usuario := db.seq_usuario + 1,
         usuarios := db.usuarios ++
           [{ id_usuario := some (db.seq_usuario + 1), nombre := nombre,
              apellido := apellido, username := username,
              password_hash := hash password, estado := estado, id_rol := id_rol }] }) :=
  rfl

/-- Witness for the amended C9 at the concrete duplicate `"ADMIN"`. -/
theorem crear_usuario_sin_unicidad_witness :
    AuthService.crear_usuario hashConcreto dbUsuarioExistente "Beto" "B" "ADMIN" "pw2" 2
        "ACTIVO" =
      (dbUsuarioExistente.seq_usuario + 1,
       { dbUsuarioExistente with
         seq_usuario := dbUsuarioExistente.seq_usuario + 1,
         usuarios := dbUsuarioExistente.usuarios ++
           [{ id_usuario := some (dbUsuarioExistente.seq_usuario + 1), nombre := "Beto",
              apellido := "B", username := "ADMIN",
              password_hash := hashConcreto "pw2", estado := "ACTIVO", id_rol := 2 }] }) :=
  crear_usuario_sin_unicidad hashConcreto dbUsuarioExistente "Beto" "B" "ADMIN" "pw2" 2
    "ACTIVO" ⟨usuarioAdmin, by simp [dbUsuarioExistente], rfl⟩

/-- C7: `login` fails returning `none` and leaving the database
unchanged (so no BITACORA_SESION row) when the username matches no
user case-insensitively, when the matched user is not `"ACTIVO"`, or
when the recomputed hash differs from the stored one; with correct
credentials of an active user it succeeds, returning the user and the
id of exactly one inserted BITACORA_SESION row whose login time is
`now` and whose logout time is NULL. -/
theorem login_spec (hash : String → String) (db : DB)
    (username password ip detalle : String) (now : Nat) :
    (UsuarioDAO.buscar_por_username db username = none →
      AuthService.login hash db username password ip detalle now = (none, db)) ∧
    (∀ u, UsuarioDAO.buscar_por_username db username = some u → u.estado ≠ "ACTIVO" →
      AuthService.login hash db username password ip detalle now = (none, db)) ∧
    (∀ u, UsuarioDAO.buscar_por_username db username = some u →
      hash password ≠ u.password_hash →
      AuthService.login hash db username password ip detalle now = (none, db)) ∧
    (∀ u, UsuarioDAO.buscar_por_username db username = some u → u.estado = "ACTIVO" →
      hash password = u.password_hash →
      AuthService.login hash db username password ip detalle now =
        (some { usuario := u, id_bitacora := db.seq_bitacora + 1 },
         { db with
           seq_bitacora := db.seq_bitacora + 1,
           bitacora := db.bitacora ++
             [{ id_bitacora := db.seq_bitacora + 1, id_usuario := u.id_usuario,
                fecha_login := now, fecha_logout := none, ip := ip,
                detalle := detalle }] })) := by
  unfold AuthService.login
  refine ⟨fun h => ?_, fun u hu hne => ?_, fun u hu hne => ?_, fun u hu hact hh => ?_⟩
  · rw [h]
  · rw [hu]
    simp only [if_pos hne]
  · simp only [hu]
    split_ifs with h1 <;> rfl
  · simp only [hu]
    split_ifs with h1 h2
    · exact absurd hact h1
    · exact absurd hh h2
    · rfl

/-- Witness for C7: the four branches at concrete inputs — unknown
username, inactive user, wrong password, and a successful login of
`usuarioAdmin` that inserts one BITACORA_SESION row with null logout
time. -/
theorem login_spec_witness :
    AuthService.login hashConcreto dbUsuarioExistente "nadie" "pw" "" "" 0 =
      (none, dbUsuarioExistente) ∧
    AuthService.login hashConcreto
        ({ usuarios := [{ usuarioAdmin with estado := "INACTIVO" }] } : DB)
        "admin" "pw" "" "" 0 =
      (none, { usuarios := [{ usuarioAdmin with estado := "INACTIVO" }] }) ∧
    AuthService.login hashConcreto dbUsuarioExistente "admin" "mala" "" "" 0 =
      (none, dbUsuarioExistente) ∧
    AuthService.login hashConcreto dbUsuarioExistente "ADMIN" "pw" "ip1" "Inicio" 7 =
      (some { usuario := usuarioAdmin,
              id_bitacora := dbUsuarioExistente.seq_bitacora + 1 },
       { dbUsuarioExistente with
         seq_bitacora := dbUsuarioExistente.seq_bitacora + 1,
         bitacora := dbUsuarioExistente.bitacora ++
           [{ id_bitacora := dbUsuarioExistente.seq_bitacora + 1,
              id_usuario := usuarioAdmin.id_usuario,
              fecha_login := 7, fecha_logout := none, ip := "ip1",
              detalle := "Inicio" }] }) :=
  ⟨(login_spec hashConcreto dbUsuarioExistente "nadie" "pw" "" "" 0).1 rfl,
   (login_spec hashConcreto _ "admin" "pw" "" "" 0).2.1
     { usuarioAdmin with estado := "INACTIVO" } rfl (by decide),
   (login_spec hashConcreto dbUsuarioExistente "admin" "mala" "" "" 0).2.2.1
     usuarioAdmin rfl (by decide),
   (login_spec hashConcreto dbUsuarioExistente "ADMIN" "pw" "ip1" "Inicio" 7).2.2.2
     usuarioAdmin rfl rfl rfl⟩

/-- The detail-insertion loop of `VentaDAO.crear` appends exactly the
rows `filas_detalle` describes and advances `SEQ_DETALLE_VENTA` by the
number of lines, touching nothing else. -/
theorem insertar_detalles_eq (ds : List DetalleVenta) :
    ∀ (db : DB) (id_venta : Nat),
      VentaDAO.insertar_detalles db id_venta ds =
        { db with
          seq_detalle := db.seq_detalle + ds.length,
          detalles := db.detalles ++ filas_detalle db.seq_detalle id_venta ds } := by
  induction ds with
  | nil =>
    intro db id_venta
    simp [VentaDAO.insertar_detalles, filas_detalle]
  | cons d ds ih =>
    intro db id_venta
    rw [VentaDAO.insertar_detalles, ih]
    simp [VentaDAO.insertar_detalle, filas_detalle, Nat.add_comm, Nat.add_left_comm,
      Nat.add_assoc]

/-- Explicit form of `VentaDAO.crear`: the new sale id, the stored
total, and the whole post-state. -/
theorem crear_eq (db : DB) (venta : Venta) :
    VentaDAO.crear db venta =
      (db.seq_venta + 1,
       (if venta.total = 0 ∧ venta.detalles ≠ [] then
          (venta.detalles.map (fun d => (d.cantidad : Rat) * d.precio_unitario)).sum
        else venta.total),
       { db with
         seq_venta := db.seq_venta + 1,
         seq_detalle := db.seq_detalle + venta.detalles.length,
         ventas := db.ventas ++
           [{ venta with
                id_venta := some (db.seq_venta + 1),
                total :=
                  if venta.total = 0 ∧ venta.detalles ≠ [] then
                    (venta.detalles.map
                      (fun d => (d.cantidad : Rat) * d.precio_unitario)).sum
                  else venta.total,
                detalles := [] }],
         detalles := db.detalles ++
           filas_detalle db.seq_detalle (db.seq_venta + 1) venta.detalles }) := by
  rw [VentaDAO.crear, insertar_detalles_eq]

/-- The after-sale stock loop only rewrites the PRODUCTOS table. -/
theorem asdv_shape (pares : List (Item × Producto)) :
    ∀ db : DB, ∃ ps,
      VentaService.actualizar_stock_despues_de_venta db pares = { db with productos := ps } := by
  induction pares with
  | nil => intro db; exact ⟨db.productos, rfl⟩
  | cons par pares ih =>
    intro db
    obtain ⟨ps, h⟩ := ih (ProductoDAO.actualizar_stock db par.2.id_producto
      (par.2.stock - par.1.cantidad))
    exact ⟨ps, h⟩

/-- Every row `filas_detalle` produces carries the new sale id and the
fields of some in-memory line (with the subtotal fix-up applied). -/
theorem mem_filas_detalle (ds : List DetalleVenta) :
    ∀ (seq0 id_venta : Nat) (d' : DetalleVenta),
      d' ∈ filas_detalle seq0 id_venta ds →
      ∃ d ∈ ds, d'.id_venta = some id_venta ∧
        d'.id_producto = d.id_producto ∧ d'.cantidad = d.cantidad ∧
        d'.precio_unitario = d.precio_unitario ∧
        d'.subtotal =
          (if d.subtotal = 0 then (d.cantidad : Rat) * d.precio_unitario else d.subtotal) := by
  induction ds with
  | nil => intro seq0 idv d' h; simp [filas_detalle] at h
  | cons d ds ih =>
    intro seq0 idv d' h
    rw [filas_detalle] at h
    rcases List.mem_cons.mp h with h1 | h1
    · subst h1
      exact ⟨d, List.mem_cons_self d ds, rfl, rfl, rfl, rfl, rfl⟩
    · obtain ⟨d0, hd0, hrest⟩ := ih (seq0 + 1) idv d' h1
      exact ⟨d0, List.mem_cons_of_mem d hd0, hrest⟩

/-- The stored subtotals of the rows `filas_detalle` produces, in
order. -/
theorem filas_subtotales (ds : List DetalleVenta) :
    ∀ (seq0 id_venta : Nat),
      (filas_detalle seq0 id_venta ds).map (fun d => d.subtotal) =
        ds.map (fun d =>
          if d.subtotal = 0 then (d.cantidad : Rat) * d.precio_unitario else d.subtotal) := by
  induction ds with
  | nil => intro seq0 idv; rfl
  | cons d ds ih =>
    intro seq0 idv
    rw [filas_detalle]
    simp only [List.map_cons]
    rw [ih]

/-- What a successful validation guarantees: the pairs carry the
requested items in order, each paired with the product the catalogue
lookup returned, with a positive quantity within stock. -/
theorem validar_ok_pares (db : DB) (items : List Item) :
    ∀ pares, VentaService.validar_y_cargar_productos db items = .ok pares →
      pares.map Prod.fst = items ∧
      ∀ par ∈ pares, ProductoDAO.obtener_por_id db par.1.id_producto = some par.2 ∧
        0 < par.1.cantidad ∧ par.1.cantidad ≤ par.2.stock := by
  induction items with
  | nil =>
    intro pares h
    rw [VentaService.validar_y_cargar_productos] at h
    obtain rfl : ([] : List (Item × Producto)) = pares := Except.ok.inj h
    exact ⟨rfl, by simp⟩
  | cons item rest ih =>
    intro pares h
    rw [VentaService.validar_y_cargar_productos] at h
    split_ifs at h with hq
    cases hobt : ProductoDAO.obtener_por_id db item.id_producto with
    | none =>
      simp only [hobt] at h
      exact Except.noConfusion h
    | some p =>
      simp only [hobt] at h
      split_ifs at h with hs
      cases hrec : VentaService.validar_y_cargar_productos db rest with
      | error e =>
        rw [hrec] at h
        exact Except.noConfusion h
      | ok rp =>
        rw [hrec] at h
        simp only [Except.map] at h
        obtain rfl : (item, p) :: rp = pares := Except.ok.inj h
        obtain ⟨hmap, hall⟩ := ih rp hrec
        refine ⟨by simp [hmap], ?_⟩
        intro par hpar
        rcases List.mem_cons.mp hpar with h1 | h1
        · subst h1
          refine ⟨hobt, ?_, ?_⟩
          · show 0 < item.cantidad
            omega
          · show item.cantidad ≤ p.stock
            omega
        · exact hall par h1

/-- The product a successful lookup returns carries the looked-up id. -/
theorem obtener_id (db : DB) (i : Int) (p : Producto)
    (h : ProductoDAO.obtener_por_id db i = some p) : p.id_producto = i := by
  rw [ProductoDAO.obtener_por_id] at h
  have h2 := List.find?_some h
  simp only [beq_iff_eq] at h2
  exact h2

/-- The total `VentaDAO.crear` computes for a service-built sale
(caller total 0) equals the sum of the stored subtotals of the
inserted rows. -/
theorem total_construir (pares : List (Item × Producto)) (seq0 id_venta : Nat) :
    (if VentaService.construir_detalles pares ≠ [] then
      ((VentaService.construir_detalles pares).map
        (fun d => (d.cantidad : Rat) * d.precio_unitario)).sum
    else 0) =
    ((filas_detalle seq0 id_venta (VentaService.construir_detalles pares)).map
      (fun d => d.subtotal)).sum := by
  rw [filas_subtotales]
  have hmap : (VentaService.construir_detalles pares).map
      (fun d => if d.subtotal = 0 then (d.cantidad : Rat) * d.precio_unitario
                else d.subtotal) =
      (VentaService.construir_detalles pares).map
        (fun d => (d.cantidad : Rat) * d.precio_unitario) := by
    apply List.map_congr_left
    intro d hd
    obtain ⟨⟨it, p⟩, hmem, rfl⟩ := List.mem_map.mp hd
    split_ifs with h0
    · rfl
    · rfl
  rw [hmap]
  by_cases hpe : VentaService.construir_detalles pares = []
  · simp [hpe]
  · rw [if_pos hpe]

/-- C5: on a successful cash sale every persisted DETALLE_VENTAS row
has `precio_unitario` equal to its product's `precio_venta` at sale
time and `subtotal = cantidad * precio_unitario`, and the persisted
VENTAS row's total is the sum of the stored subtotals; and whenever a
caller hands `VentaDAO.crear` a non-zero total, that total is stored
as given instead of being recomputed. -/
theorem venta_total_y_subtotales (db : DB) (id_usuario id_cliente : Int)
    (items : List Item) (id_venta : Nat) (db' : DB)
    (h : VentaService.registrar_venta_contado db id_usuario id_cliente items =
      (.ok id_venta, db')) :
    (∃ filas, db'.detalles = db.detalles ++ filas ∧
      (∀ d ∈ filas, d.id_venta = some id_venta ∧
        d.subtotal = (d.cantidad : Rat) * d.precio_unitario ∧
        ∃ p, ProductoDAO.obtener_por_id db d.id_producto = some p ∧
          d.precio_unitario = p.precio_venta) ∧
      ∃ v, db'.ventas = db.ventas ++ [v] ∧ v.id_venta = some id_venta ∧
        v.total = (filas.map (fun d => d.subtotal)).sum) ∧
    (∀ (db2 : DB) (venta : Venta), venta.total ≠ 0 →
      (VentaDAO.crear db2 venta).2.1 = venta.total ∧
      ∃ v, (VentaDAO.crear db2 venta).2.2.ventas = db2.ventas ++ [v] ∧
        v.total = venta.total) := by
  constructor
  · cases hval : VentaService.validar_y_cargar_productos db items with
    | error e =>
      rw [VentaService.registrar_venta_contado, hval] at h
      simp at h
    | ok pares =>
      rw [VentaService.registrar_venta_contado] at h
      simp only [hval, crear_eq, Prod.mk.injEq, Except.ok.injEq] at h
      obtain ⟨h1, h2⟩ := h
      subst h1
      subst h2
      obtain ⟨ps, hps⟩ := asdv_shape pares _
      rw [hps]
      refine ⟨filas_detalle db.seq_detalle (db.seq_venta + 1)
        (VentaService.construir_detalles pares), rfl, ?_, ?_⟩
      · intro d hd
        obtain ⟨d0, hd0, hidv, hip, hcant, hprec, hsub⟩ :=
          mem_filas_detalle _ _ _ d hd
        obtain ⟨⟨it, p⟩, hpar, rfl⟩ := List.mem_map.mp hd0
        have hpair := (validar_ok_pares db items pares hval).2 (it, p) hpar
        have hpair1 : ProductoDAO.obtener_por_id db it.id_producto = some p := hpair.1
        refine ⟨hidv, ?_, ⟨p, ?_, ?_⟩⟩
        · rw [hsub, hcant, hprec]
          split_ifs with h0
          · rfl
          · rfl
        · rw [hip]
          show ProductoDAO.obtener_por_id db p.id_producto = some p
          rw [obtener_id db it.id_producto p hpair1]
          exact hpair1
        · rw [hprec]
      · refine ⟨_, rfl, rfl, ?_⟩
        simp only [true_and]
        exact total_construir pares db.seq_detalle (db.seq_venta + 1)
  · intro db2 venta hne
    have hcond : ¬(venta.total = 0 ∧ venta.detalles ≠ []) := fun hc => hne hc.1
    rw [crear_eq]
    constructor
    · show (if venta.total = 0 ∧ venta.detalles ≠ [] then
          (venta.detalles.map (fun d => (d.cantidad : Rat) * d.precio_unitario)).sum
        else venta.total) = venta.total
      exact if_neg hcond
    · refine ⟨_, rfl, ?_⟩
      show (if venta.total = 0 ∧ venta.detalles ≠ [] then
          (venta.detalles.map (fun d => (d.cantidad : Rat) * d.precio_unitario)).sum
        else venta.total) = venta.total
      exact if_neg hcond

/-- Witness for C5: the two-line cash sale on `dbDosProductos`. -/
theorem venta_total_y_subtotales_witness :
    ∃ filas,
      (VentaService.registrar_venta_contado dbDosProductos 1 1
        [{ id_producto := 1, cantidad := 2 },
         { id_producto := 2, cantidad := 3 }]).2.detalles =
        dbDosProductos.detalles ++ filas ∧
      (∀ d ∈ filas, d.id_venta = some 1 ∧
        d.subtotal = (d.cantidad : Rat) * d.precio_unitario ∧
        ∃ p, ProductoDAO.obtener_por_id dbDosProductos d.id_producto = some p ∧
          d.precio_unitario = p.precio_venta) ∧
      ∃ v, (VentaService.registrar_venta_contado dbDosProductos 1 1
          [{ id_producto := 1, cantidad := 2 },
           { id_producto := 2, cantidad := 3 }]).2.ventas =
        dbDosProductos.ventas ++ [v] ∧ v.id_venta = some 1 ∧
        v.total = (filas.map (fun d => d.subtotal)).sum :=
  (venta_total_y_subtotales dbDosProductos 1 1
    [{ id_producto := 1, cantidad := 2 }, { id_producto := 2, cantidad := 3 }] 1
    (VentaService.registrar_venta_contado dbDosProductos 1 1
      [{ id_producto := 1, cantidad := 2 }, { id_producto := 2, cantidad := 3 }]).2
    rfl).1

/-- When every line has a positive quantity and an existing product
but some line asks for more than its product's stock, validation stops
at the first such line with its insufficient-stock error. -/
theorem validar_primer_error_stock (db : DB) (items : List Item) :
    (∀ it ∈ items, 0 < it.cantidad) →
    (∀ it ∈ items, ∃ p, ProductoDAO.obtener_por_id db it.id_producto = some p) →
    (∃ it ∈ items, ∃ p, ProductoDAO.obtener_por_id db it.id_producto = some p ∧
      p.stock < it.cantidad) →
    ∃ it ∈ items, ∃ p, ProductoDAO.obtener_por_id db it.id_producto = some p ∧
      p.stock < it.cantidad ∧
      VentaService.validar_y_cargar_productos db items =
        .error (.stockInsuficiente p.nombre p.stock it.cantidad) := by
  induction items with
  | nil =>
    intro _ _ hbad
    obtain ⟨it, hit, _⟩ := hbad
    simp at hit
  | cons item rest ih =>
    intro hpos hex hbad
    rw [VentaService.validar_y_cargar_productos]
    have hq : ¬item.cantidad ≤ 0 := by
      have := hpos item (List.mem_cons_self _ _)
      omega
    rw [if_neg hq]
    obtain ⟨p, hp⟩ := hex item (List.mem_cons_self _ _)
    by_cases hs : p.stock < item.cantidad
    · refine ⟨item, List.mem_cons_self _ _, p, hp, hs, ?_⟩
      simp only [hp, if_pos hs]
    · have hbad2 : ∃ it ∈ rest, ∃ p,
          ProductoDAO.obtener_por_id db it.id_producto = some p ∧
          p.stock < it.cantidad := by
        obtain ⟨it, hit, p2, hp2, hs2⟩ := hbad
        rcases List.mem_cons.mp hit with heq | hmem
        · subst heq
          have hpp : p = p2 := Option.some_inj.mp (hp.symm.trans hp2)
          subst hpp
          exact absurd hs2 hs
        · exact ⟨it, hmem, p2, hp2, hs2⟩
      obtain ⟨it, hit, p2, hp2, hs2, hval⟩ :=
        ih (fun x hx => hpos x (List.mem_cons_of_mem _ hx))
          (fun x hx => hex x (List.mem_cons_of_mem _ hx)) hbad2
      refine ⟨it, List.mem_cons_of_mem _ hit, p2, hp2, hs2, ?_⟩
      simp only [hp, if_neg hs, hval]
      rfl

/-- C4: a cash-sale request whose lines all have positive quantities
and existing products but where some line's quantity exceeds its
product's stock fails with the insufficient-stock `ValueError` — whose
message names the product and both quantities — and returns the
database untouched (no stock changed). -/
theorem venta_contado_stock_insuficiente_falla (db : DB) (id_usuario id_cliente : Int)
    (items : List Item)
    (hpos : ∀ it ∈ items, 0 < it.cantidad)
    (hex : ∀ it ∈ items, ∃ p, ProductoDAO.obtener_por_id db it.id_producto = some p)
    (hbad : ∃ it ∈ items, ∃ p, ProductoDAO.obtener_por_id db it.id_producto = some p ∧
      p.stock < it.cantidad) :
    ∃ it ∈ items, ∃ p, ProductoDAO.obtener_por_id db it.id_producto = some p ∧
      p.stock < it.cantidad ∧
      VentaService.registrar_venta_contado db id_usuario id_cliente items =
        (.error (.stockInsuficiente p.nombre p.stock it.cantidad), db) ∧
      (VError.stockInsuficiente p.nombre p.stock it.cantidad).mensaje =
        "Stock insuficiente para producto " ++ p.nombre ++ " (stock=" ++
          toString p.stock ++ ", solicitado=" ++ toString it.cantidad ++ ")" := by
  obtain ⟨it, hit, p, hp, hs, hval⟩ := validar_primer_error_stock db items hpos hex hbad
  refine ⟨it, hit, p, hp, hs, ?_, ?_⟩
  · rw [VentaService.registrar_venta_contado, hval]
  · simp [VError.mensaje, instToStringString, String.append_assoc]

/-- Witness for C4: asking 7 units of product 1 (stock 5) on
`dbDosProductos`. -/
theorem venta_contado_stock_insuficiente_falla_witness :
    ∃ it ∈ [({ id_producto := 1, cantidad := 7 } : Item)], ∃ p,
      ProductoDAO.obtener_por_id dbDosProductos it.id_producto = some p ∧
      p.stock < it.cantidad ∧
      VentaService.registrar_venta_contado dbDosProductos 1 1
          [{ id_producto := 1, cantidad := 7 }] =
        (.error (.stockInsuficiente p.nombre p.stock it.cantidad), dbDosProductos) ∧
      (VError.stockInsuficiente p.nombre p.stock it.cantidad).mensaje =
        "Stock insuficiente para producto " ++ p.nombre ++ " (stock=" ++
          toString p.stock ++ ", solicitado=" ++ toString it.cantidad ++ ")" :=
  venta_contado_stock_insuficiente_falla dbDosProductos 1 1
    [{ id_producto := 1, cantidad := 7 }]
    (by
      intro it hit
      rw [List.mem_singleton] at hit
      subst hit
      decide)
    (by
      intro it hit
      rw [List.mem_singleton] at hit
      subst hit
      exact ⟨productoA, rfl⟩)
    ⟨{ id_producto := 1, cantidad := 7 }, List.mem_singleton_self _,
     productoA, rfl, by decide⟩

/-- The stock loop leaves VENTAS untouched. -/
theorem asdv_ventas (pares : List (Item × Producto)) (db : DB) :
    (VentaService.actualizar_stock_despues_de_venta db pares).ventas = db.ventas := by
  obtain ⟨ps, h⟩ := asdv_shape pares db
  rw [h]

/-- The stock loop leaves CREDITOS untouched. -/
theorem asdv_creditos (pares : List (Item × Producto)) (db : DB) :
    (VentaService.actualizar_stock_despues_de_venta db pares).creditos = db.creditos := by
  obtain ⟨ps, h⟩ := asdv_shape pares db
  rw [h]

/-- The stock loop leaves `SEQ_CREDITO` untouched. -/
theorem asdv_seq_credito (pares : List (Item × Producto)) (db : DB) :
    (VentaService.actualizar_stock_despues_de_venta db pares).seq_credito =
      db.seq_credito := by
  obtain ⟨ps, h⟩ := asdv_shape pares db
  rw [h]

/-- C6: a successful credit sale appends exactly one CREDITOS row,
whose `saldo_total` and `saldo_pendiente` both equal the stored sale
total and whose estado is `"VIGENTE"`, and returns the new sale id and
the new credit id (both freshly drawn from their sequences). -/
theorem venta_credito_crea_credito (db : DB) (id_usuario id_cliente : Int)
    (items : List Item) (fecha_vencimiento : Nat) (id_venta id_credito : Nat) (db' : DB)
    (h : VentaService.registrar_venta_credito db id_usuario id_cliente items
        fecha_vencimiento = (.ok (id_venta, id_credito), db')) :
    ∃ T, db'.creditos = db.creditos ++
        [{ id_credito := some id_credito, id_venta := id_venta, saldo_total := T,
           saldo_pendiente := T, fecha_vencimiento := fecha_vencimiento,
           estado := "VIGENTE" }] ∧
      (∃ v, db'.ventas = db.ventas ++ [v] ∧ v.id_venta = some id_venta ∧ v.total = T) ∧
      id_venta = db.seq_venta + 1 ∧ id_credito = db.seq_credito + 1 := by
  cases hval : VentaService.validar_y_cargar_productos db items with
  | error e =>
    rw [VentaService.registrar_venta_credito, hval] at h
    simp at h
  | ok pares =>
    rw [VentaService.registrar_venta_credito] at h
    simp only [hval, crear_eq, CreditoDAO.crear, asdv_ventas, asdv_creditos,
      asdv_seq_credito, Prod.mk.injEq, Except.ok.injEq] at h
    obtain ⟨⟨h1, h2⟩, h3⟩ := h
    subst h1
    subst h2
    subst h3
    refine ⟨_, rfl, ?_, rfl, rfl⟩
    simp only [asdv_ventas]
    exact ⟨_, rfl, rfl, rfl⟩

/-- Witness for C6: a one-line credit sale on `dbDosProductos`. -/
theorem venta_credito_crea_credito_witness :
    ∃ T, (VentaService.registrar_venta_credito dbDosProductos 1 1
        [{ id_producto := 1, cantidad := 2 }] 30).2.creditos =
      dbDosProductos.creditos ++
        [{ id_credito := some 1, id_venta := 1, saldo_total := T,
           saldo_pendiente := T, fecha_vencimiento := 30, estado := "VIGENTE" }] ∧
      (∃ v, (VentaService.registrar_venta_credito dbDosProductos 1 1
          [{ id_producto := 1, cantidad := 2 }] 30).2.ventas =
        dbDosProductos.ventas ++ [v] ∧ v.id_venta = some 1 ∧ v.total = T) ∧
      1 = dbDosProductos.seq_venta + 1 ∧ 1 = dbDosProductos.seq_credito + 1 :=
  venta_credito_crea_credito dbDosProductos 1 1 [{ id_producto := 1, cantidad := 2 }]
    30 1 1
    (VentaService.registrar_venta_credito dbDosProductos 1 1
      [{ id_producto := 1, cantidad := 2 }] 30).2 rfl

/-- Two `UPDATE ... SET STOCK` statements on the same product: the
second overwrites the first. -/
theorem actualizar_stock_sobrescribe (db : DB) (i : Int) (v1 v2 : Int) :
    ProductoDAO.actualizar_stock (ProductoDAO.actualizar_stock db i v1) i v2 =
      ProductoDAO.actualizar_stock db i v2 := by
  simp only [ProductoDAO.actualizar_stock, List.map_map]
  congr 1
  apply List.map_congr_left
  intro p _
  by_cases hp : p.id_producto == i
  · simp [Function.comp, hp]
  · simp [Function.comp, hp]

/-- The after-sale stock loop over lines that all share one product
snapshot ends in a single write of `p.stock - lastIt.cantidad`: each
per-line write starts from the snapshot fetched during validation, so
the last line's write wins. -/
theorem asdv_mismo_producto (p : Producto) (lastIt : Item) :
    ∀ items : List Item, items.getLast? = some lastIt →
    ∀ db : DB,
      VentaService.actualizar_stock_despues_de_venta db
          (items.map (fun it => (it, p))) =
        ProductoDAO.actualizar_stock db p.id_producto (p.stock - lastIt.cantidad) := by
  intro items
  induction items with
  | nil =>
    intro hlast
    simp at hlast
  | cons it rest ih =>
    intro hlast db
    cases rest with
    | nil =>
      rw [List.getLast?_singleton] at hlast
      obtain rfl : it = lastIt := Option.some_inj.mp hlast
      rfl
    | cons it2 rest2 =>
      rw [List.getLast?_cons_cons] at hlast
      calc VentaService.actualizar_stock_despues_de_venta db
            ((it :: it2 :: rest2).map (fun x => (x, p)))
          = VentaService.actualizar_stock_despues_de_venta
              (ProductoDAO.actualizar_stock db p.id_producto (p.stock - it.cantidad))
              ((it2 :: rest2).map (fun x => (x, p))) := rfl
        _ = ProductoDAO.actualizar_stock
              (ProductoDAO.actualizar_stock db p.id_producto (p.stock - it.cantidad))
              p.id_producto (p.stock - lastIt.cantidad) := ih hlast _
        _ = ProductoDAO.actualizar_stock db p.id_producto
              (p.stock - lastIt.cantidad) := actualizar_stock_sobrescribe db _ _ _

/-- Validation of lines that all name the same product and each stay
within its stored stock succeeds, pairing every line with the same
product snapshot — each line is checked independently, so a combined
quantity above stock still passes. -/
theorem validar_mismo_producto (db : DB) (p : Producto) :
    ∀ items : List Item,
      (∀ it ∈ items, it.id_producto = p.id_producto ∧ 0 < it.cantidad ∧
        it.cantidad ≤ p.stock) →
      ProductoDAO.obtener_por_id db p.id_producto = some p →
      VentaService.validar_y_cargar_productos db items =
        .ok (items.map (fun it => (it, p))) := by
  intro items
  induction items with
  | nil => intro _ _; rfl
  | cons it rest ih =>
    intro hall hp
    obtain ⟨hid, hqpos, hqle⟩ := hall it (List.mem_cons_self _ _)
    rw [VentaService.validar_y_cargar_productos,
      if_neg (show ¬it.cantidad ≤ 0 by omega)]
    simp only [hid, hp]
    rw [if_neg (not_lt.mpr hqle)]
    rw [ih (fun x hx => hall x (List.mem_cons_of_mem _ hx)) hp]
    rfl

/-- A stock update is visible through the keyed lookup. -/
theorem obtener_tras_actualizar (db : DB) (i : Int) (p : Producto) (v : Int)
    (h : ProductoDAO.obtener_por_id db i = some p) :
    ProductoDAO.obtener_por_id (ProductoDAO.actualizar_stock db i v) i =
      some { p with stock := v } :=
  encontrar_tras_map db.productos _ _ p (fun x => rfl) h

/-- C8: a cash sale whose lines all name the same product validates
each line independently against the stored stock (so a combined
quantity above stock can pass) and the per-line stock writes overwrite
one another: the sale succeeds and the stored stock ends at
`p.stock - (last line).cantidad`. -/
theorem venta_lineas_duplicadas_ultima_gana (db : DB) (id_usuario id_cliente : Int)
    (items : List Item) (p : Producto) (lastIt : Item)
    (hp : ProductoDAO.obtener_por_id db p.id_producto = some p)
    (hall : ∀ it ∈ items, it.id_producto = p.id_producto ∧ 0 < it.cantidad ∧
      it.cantidad ≤ p.stock)
    (hlast : items.getLast? = some lastIt) :
    ∃ id_venta db',
      VentaService.registrar_venta_contado db id_usuario id_cliente items =
        (.ok id_venta, db') ∧
      ProductoDAO.obtener_por_id db' p.id_producto =
        some { p with stock := p.stock - lastIt.cantidad } := by
  have hval := validar_mismo_producto db p items hall hp
  rw [VentaService.registrar_venta_contado]
  simp only [hval, crear_eq]
  refine ⟨db.seq_venta + 1, _, rfl, ?_⟩
  rw [asdv_mismo_producto p lastIt items hlast]
  apply obtener_tras_actualizar
  exact hp

/-- Witness for C8: two lines of 3 and 4 units on product 1 (stock 5):
the combined 7 exceeds the stock, yet the sale succeeds and the stored
stock ends at 5 - 4 = 1 (the last line's write wins). -/
theorem venta_lineas_duplicadas_ultima_gana_witness :
    ∃ id_venta db',
      VentaService.registrar_venta_contado dbDosProductos 1 1
          [{ id_producto := 1, cantidad := 3 }, { id_producto := 1, cantidad := 4 }] =
        (.ok id_venta, db') ∧
      ProductoDAO.obtener_por_id db' productoA.id_producto =
        some { productoA with
                 stock := productoA.stock -
                   ({ id_producto := 1, cantidad := 4 } : Item).cantidad } :=
  venta_lineas_duplicadas_ultima_gana dbDosProductos 1 1
    [{ id_producto := 1, cantidad := 3 }, { id_producto := 1, cantidad := 4 }]
    productoA { id_producto := 1, cantidad := 4 }
    rfl
    (by
      intro it hit
      simp only [List.mem_cons, List.mem_singleton] at hit
      rcases hit with rfl | rfl | h
      · exact ⟨rfl, by decide, by decide⟩
      · exact ⟨rfl, by decide, by decide⟩
      · simp at h)
    rfl
